import Mathlib

/-!
Shallow embedding of the Takam tourism single-page application
(`src/App.tsx`).  Numbers that the source manipulates as JS numbers are
modelled as rationals (`ℚ`) and integers (`ℤ`); the external
collaborators (Leaflet map widget, Gemini AI service, browser
geolocation) are modelled as opaque parameters or command traces, as the
spec declares them out of scope.
-/

/-- `TrekPoint` record from `src/App.tsx` (`types.ts` shape used there). -/
structure TrekPoint where
  day : Nat
  altitude : Int
  label : String
  lat : Rat
  lng : Rat
  deriving DecidableEq

/-- Placeholder point used only to give `List.getD` a default; the loops in
the source never index out of range. -/
def dummyPoint : TrekPoint :=
  { day := 0, altitude := 0, label := "", lat := 0, lng := 0 }

/-- `MOCK_TREK_DATA` from `src/App.tsx` lines 30-38. -/
def MOCK_TREK_DATA : List TrekPoint :=
  [ { day := 1, altitude := 830,  label := "Beni",          lat := 28.3444, lng := 83.5651 },
    { day := 2, altitude := 1200, label := "Darbang",       lat := 28.4067, lng := 83.4000 },
    { day := 3, altitude := 1670, label := "Takam Village", lat := 28.4230, lng := 83.3333 },
    { day := 4, altitude := 2200, label := "Muri Village",  lat := 28.4833, lng := 83.2500 },
    { day := 5, altitude := 3100, label := "Boghara",       lat := 28.5333, lng := 83.2333 },
    { day := 6, altitude := 3660, label := "Dobang",        lat := 28.5833, lng := 83.2167 },
    { day := 7, altitude := 4740, label := "Dhaulagiri BC", lat := 28.6750, lng := 83.4722 } ]

/-- JS `Number.prototype.toFixed(2)` on the non-negative values arising in
this program: round to the nearest multiple of 1/100, ties toward the larger
value, then print with exactly two digits after the decimal point. -/
def toFixed2 (x : Rat) : String :=
  let n : Int := ⌊x * 100 + 1 / 2⌋
  toString (n / 100) ++ "." ++ (if n % 100 < 10 then "0" else "") ++ toString (n % 100)

/-- The `for` loop of `calculateTotalDistance` (`src/App.tsx` lines 60-65):
`total` starts at 0 and accumulates `d points[i] points[i+1]` for
`i = 0 .. points.length - 2`.  The pairwise metric `d` stands for Leaflet's
`L.latLng(..).distanceTo(..)` (the external map widget's great-circle
distance in meters, spherical earth of radius 6371 km), which the spec
treats as an out-of-scope collaborator. -/
def totalLoop (d : TrekPoint → TrekPoint → Rat) (points : List TrekPoint) : Rat :=
  (List.range (points.length - 1)).foldl
    (fun total i => total + d (points.getD i dummyPoint) (points.getD (i + 1) dummyPoint)) 0

/-- `calculateTotalDistance` from `src/App.tsx` lines 59-67:
sum the pairwise distances, divide by 1000 (meters → kilometers), format
with `toFixed(2)`. -/
def calculateTotalDistance (d : TrekPoint → TrekPoint → Rat)
    (points : List TrekPoint) : String :=
  toFixed2 (totalLoop d points / 1000)

/-- Spec-side formulation of the same quantity: the sum of `d` over each
consecutive pair of the sequence, written directly as a sum over
`points.zip points.tail`. -/
def consecutivePairSum (d : TrekPoint → TrekPoint → Rat)
    (points : List TrekPoint) : Rat :=
  ((points.zip points.tail).map (fun pq => d pq.1 pq.2)).sum

/-- Geographic coordinate pair, as handed to the map widget. -/
structure Coord where
  lat : Rat
  lng : Rat
  deriving DecidableEq

def coordOfPoint (p : TrekPoint) : Coord := { lat := p.lat, lng := p.lng }

/-- Camera commands issued to the map widget collaborator. -/
inductive CameraCmd where
  | setView : Coord → Nat → CameraCmd
  | flyTo : Coord → Nat → CameraCmd
  | fitBounds : List Coord → Nat × Nat → CameraCmd
  | flyToBounds : List Coord → Nat × Nat → CameraCmd
  deriving DecidableEq

/-- State of one mounted `SatelliteMapView` instance (`src/App.tsx` lines
70-138): the `leafletMap`, `userMarker` and `trailLayer` refs, plus
creation counters for each kind of widget object (they count how many
times the corresponding Leaflet constructor has run during the view's
lifetime) and the log of camera commands sent to the widget. -/
structure MapViewState where
  mapCreated : Bool
  mapCreations : Nat
  tileCreations : Nat
  trailCreations : Nat
  trailRef : Option (List Coord)
  wpMarkers : List (Coord × String)
  userMarkerCreations : Nat
  userMarkerPos : Option Coord
  cameraLog : List CameraCmd
  deriving DecidableEq

/-- A freshly mounted view: all refs null, nothing created. -/
def initialMapViewState : MapViewState :=
  { mapCreated := false, mapCreations := 0, tileCreations := 0,
    trailCreations := 0, trailRef := none, wpMarkers := [],
    userMarkerCreations := 0, userMarkerPos := none, cameraLog := [] }

/-- The `useEffect` body of `SatelliteMapView` (`src/App.tsx` lines 76-128).
If the container ref is valid and no map exists yet: create the map with
`setView([lat,lng],13)`, attach the tile layer, create the user marker at
the live location, create the trail polyline from the full waypoint list,
add one labelled marker per waypoint, and `fitBounds` to the trail with
padding [50,50].  Then, whenever the map exists, move the user marker to
the live location (`userMarker.current?.setLatLng`). -/
def satelliteMapEffect (containerValid : Bool) (lat lng : Rat)
    (trail : List TrekPoint) (s : MapViewState) : MapViewState :=
  let s1 :=
    if containerValid && !s.mapCreated then
      let coords := trail.map coordOfPoint
      { s with
        mapCreated := true
        mapCreations := s.mapCreations + 1
        tileCreations := s.tileCreations + 1
        userMarkerCreations := s.userMarkerCreations + 1
        userMarkerPos := some { lat := lat, lng := lng }
        trailCreations := s.trailCreations + 1
        trailRef := some coords
        wpMarkers := trail.map (fun p => (coordOfPoint p, p.label))
        cameraLog := s.cameraLog ++
          [CameraCmd.setView { lat := lat, lng := lng } 13,
           CameraCmd.fitBounds coords (50, 50)] }
    else s
  if s1.mapCreated then
    { s1 with userMarkerPos := s1.userMarkerPos.map (fun _ => { lat := lat, lng := lng }) }
  else s1

/-- `handleRecenter` (`src/App.tsx` lines 130-132):
`leafletMap.current?.flyTo([lat, lng], 15)`. -/
def handleRecenter (lat lng : Rat) (s : MapViewState) : MapViewState :=
  if s.mapCreated then
    { s with cameraLog := s.cameraLog ++ [CameraCmd.flyTo { lat := lat, lng := lng } 15] }
  else s

/-- `showEntireTrail` (`src/App.tsx` lines 134-138):
if the trail layer exists, `flyToBounds` of its bounds with padding [50,50]. -/
def showEntireTrail (s : MapViewState) : MapViewState :=
  match s.trailRef with
  | some coords =>
    if s.mapCreated then
      { s with cameraLog := s.cameraLog ++ [CameraCmd.flyToBounds coords (50, 50)] }
    else s
  | none => s

/-- The four navigation tabs of the shell. -/
inductive Tab where
  | home | scanner | trek | about
  deriving DecidableEq

/-- `MountainInfo` shape consumed from the AI service (`src/App.tsx`
lines 667-674). -/
structure MountainInfo where
  name : String
  elevation : String
  significance : String
  difficulty : String
  weatherForecast : Option String := none
  description : String
  deriving DecidableEq

/-- `VillageInfo` shape (`src/App.tsx` lines 676-682). -/
structure VillageInfo where
  name : String
  region : String
  altitude : String
  culture : String
  highlights : List String
  deriving DecidableEq

/-- The `weatherData` state shape `{ temp: number; desc: string }`. -/
structure WeatherData where
  temp : Int
  desc : String
  deriving DecidableEq

/-- The application shell's React state (`src/App.tsx` lines 201-208). -/
structure AppState where
  activeTab : Tab
  landmark : Option MountainInfo
  village : Option VillageInfo
  loading : Bool
  weatherData : Option WeatherData
  currentAltitude : Option Int
  currentLocation : Coord
  previewImage : Option String
  deriving DecidableEq

/-- The `useState` initial values (`src/App.tsx` lines 201-208); the default
location is Takam (28.4230, 83.3333). -/
def initialAppState : AppState :=
  { activeTab := Tab.home, landmark := none, village := none, loading := false,
    weatherData := none, currentAltitude := none,
    currentLocation := { lat := 28.4230, lng := 83.3333 }, previewImage := none }

/-- Observable effects of a shell handler, in program order. -/
inductive Event where
  | setLoading : Bool → Event
  | setPreview : String → Event
  | identifyCall : Event
  | alertShown : Event
  | logError : Event
  | setLandmark : MountainInfo → Event
  | setActiveTab : Tab → Event
  | setVillage : VillageInfo → Event
  | setWeather : WeatherData → Event
  deriving DecidableEq

/-- `fullBase64.split(',')[1]` from `src/App.tsx` line 261. -/
def base64Part (full : String) : String :=
  ((full.splitOn ",").drop 1).headD ""

/-- `handleFileUpload` (`src/App.tsx` lines 252-273), linearised at the point
where the `FileReader` has delivered `fullBase64`.  `file` is
`event.target.files?.[0]` (absent ⇒ early return); `identifyLandmark` is the
AI collaborator, returning either the landmark info or an error.  Returns
the resulting shell state and the trace of effects in program order. -/
def handleFileUpload (s : AppState) (file : Option String) (fullBase64 : String)
    (identifyLandmark : String → Except Unit MountainInfo) :
    AppState × List Event :=
  match file with
  | none => (s, [])
  | some _ =>
    let s1 := { s with loading := true }
    let s2 := { s1 with previewImage := some fullBase64 }
    match identifyLandmark (base64Part fullBase64) with
    | Except.ok info =>
      ({ s2 with landmark := some info, activeTab := Tab.scanner, loading := false },
       [Event.setLoading true, Event.setPreview fullBase64, Event.identifyCall,
        Event.setLandmark info, Event.setActiveTab Tab.scanner, Event.setLoading false])
    | Except.error _ =>
      ({ s2 with loading := false },
       [Event.setLoading true, Event.setPreview fullBase64, Event.identifyCall,
        Event.alertShown, Event.setLoading false])

/-- Result shape of the `getSearchInfo` collaborator. -/
structure SearchResult where
  text : String
  deriving DecidableEq

/-- `loadVillageData` (`src/App.tsx` lines 238-250): set loading, await the
village insight (failure ⇒ `console.error` in the catch), then the weather
search (failure ⇒ same catch), storing each result as it arrives; `finally`
clear loading.  Returns the resulting shell state and the effect trace. -/
def loadVillageData (s : AppState) (getVillageInsights : Except Unit VillageInfo)
    (getSearchInfo : Except Unit SearchResult) : AppState × List Event :=
  let s1 := { s with loading := true }
  match getVillageInsights with
  | Except.error _ =>
    ({ s1 with loading := false },
     [Event.setLoading true, Event.logError, Event.setLoading false])
  | Except.ok data =>
    let s2 := { s1 with village := some data }
    match getSearchInfo with
    | Except.error _ =>
      ({ s2 with loading := false },
       [Event.setLoading true, Event.setVillage data, Event.logError, Event.setLoading false])
    | Except.ok sr =>
      let w : WeatherData := { temp := 16, desc := sr.text.take 100 ++ "..." }
      ({ s2 with weatherData := some w, loading := false },
       [Event.setLoading true, Event.setVillage data, Event.setWeather w, Event.setLoading false])

/-- One reading delivered by the geolocation collaborator:
`position.coords.{latitude, longitude, altitude}` with `altitude`
possibly `null`. -/
structure GeoReading where
  lat : Rat
  lng : Rat
  altitude : Option Rat
  deriving DecidableEq

/-- JS `Math.round`: nearest integer, ties toward positive infinity. -/
def jsRound (x : Rat) : Int := ⌊x + 1 / 2⌋

/-- The `watchPosition` success callback (`src/App.tsx` lines 225-230):
overwrite `currentLocation` with the reading's coordinates and, when the
reading carries a non-null altitude, overwrite `currentAltitude` with
`Math.round` of it. -/
def onWatchUpdate (s : AppState) (r : GeoReading) : AppState :=
  let s1 := { s with currentLocation := { lat := r.lat, lng := r.lng } }
  match r.altitude with
  | some a => { s1 with currentAltitude := some (jsRound a) }
  | none => s1

/-- The one-shot `getCurrentPosition` callback (`src/App.tsx` lines 215-218)
has the same body as the watch callback. -/
def onInitialPosition : AppState → GeoReading → AppState := onWatchUpdate

/-- Commands exchanged with the geolocation collaborator. -/
inductive GeoCmd where
  | watchPosition : Bool → GeoCmd
  | clearWatch : Nat → GeoCmd
  deriving DecidableEq

/-- The watch `useEffect` (`src/App.tsx` lines 222-236): when geolocation is
available, start a high-accuracy watch and return the teardown cleanup
`clearWatch(watchId)`; otherwise do nothing and return no cleanup. -/
def watchEffect (geoAvailable : Bool) (watchId : Nat) :
    List GeoCmd × Option (List GeoCmd) :=
  if geoAvailable then
    ([GeoCmd.watchPosition true], some [GeoCmd.clearWatch watchId])
  else ([], none)

/-- `displayedAltitude` (`src/App.tsx` line 275):
`currentAltitude ?? MOCK_TREK_DATA[2].altitude`. -/
def displayedAltitude (s : AppState) : Int :=
  s.currentAltitude.getD ((MOCK_TREK_DATA.getD 2 dummyPoint).altitude)

/-- Example state of an already-initialized map view, used by witnesses. -/
def exMapState : MapViewState :=
  { mapCreated := true, mapCreations := 1, tileCreations := 1, trailCreations := 1,
    trailRef := some [], wpMarkers := [], userMarkerCreations := 1,
    userMarkerPos := some { lat := 0, lng := 0 }, cameraLog := [] }

/-- Example landmark returned by the AI collaborator, used by witnesses. -/
def exInfo : MountainInfo :=
  { name := "Poon Hill", elevation := "3210m", significance := "sunrise point",
    difficulty := "Moderate", description := "famous viewpoint" }

/-- Example village insight returned by the AI collaborator. -/
def exVillage : VillageInfo :=
  { name := "Takam", region := "Myagdi", altitude := "1,670m",
    culture := "Magar heritage", highlights := ["Takam Kot"] }

/-- Folding addition over a list starting from `a` equals `a` plus the sum of
the mapped list. -/
theorem foldl_add_eq {α : Type} (f : α → Rat) :
    ∀ (l : List α) (a : Rat),
      l.foldl (fun acc x => acc + f x) a = a + (l.map f).sum := by
  intro l
  induction l with
  | nil => intro a; simp
  | cons x xs ih =>
    intro a
    simp only [List.foldl_cons, List.map_cons, List.sum_cons, ih]
    ring

/-- The index-based traversal of the source's `for` loop visits exactly the
consecutive pairs of the sequence. -/
theorem range_pairs_eq (d : TrekPoint → TrekPoint → Rat) :
    ∀ (pts : List TrekPoint),
      (List.range (pts.length - 1)).map
          (fun i => d (pts.getD i dummyPoint) (pts.getD (i + 1) dummyPoint))
        = (pts.zip pts.tail).map (fun pq => d pq.1 pq.2) := by
  intro pts
  induction pts with
  | nil => simp
  | cons p rest ih =>
    cases rest with
    | nil => simp
    | cons q rest2 =>
      simp only [List.length_cons, Nat.add_sub_cancel, List.range_succ_eq_map,
        List.map_cons, List.map_map, Function.comp, List.zip_cons_cons,
        List.tail_cons, List.getD_cons_zero, List.getD_cons_succ] at ih ⊢
      rw [← ih]
      simp [Nat.add_sub_cancel]

/-- The source's accumulation loop computes the consecutive-pair sum. -/
theorem totalLoop_eq_pairSum (d : TrekPoint → TrekPoint → Rat)
    (pts : List TrekPoint) : totalLoop d pts = consecutivePairSum d pts := by
  unfold totalLoop consecutivePairSum
  rw [foldl_add_eq, range_pairs_eq]
  simp

/-- Claim C1: for every waypoint sequence, `calculateTotalDistance` returns
the sum of the pairwise distances between consecutive points (the map
widget's great-circle metric, abstracted as `d`), converted to kilometers
and formatted to two decimal places; for sequences of length 0 or 1 it
returns exactly "0.00". -/
theorem calculateTotalDistance_spec (d : TrekPoint → TrekPoint → Rat)
    (points : List TrekPoint) :
    calculateTotalDistance d points = toFixed2 (consecutivePairSum d points / 1000)
    ∧ (points.length ≤ 1 → calculateTotalDistance d points = "0.00") := by
  constructor
  · unfold calculateTotalDistance
    rw [totalLoop_eq_pairSum]
  · intro h
    have hz : totalLoop d points = 0 := by
      cases points with
      | nil => simp [totalLoop]
      | cons p rest =>
        cases rest with
        | nil => simp [totalLoop]
        | cons q rest2 => simp at h
    unfold calculateTotalDistance
    rw [hz]
    norm_num [toFixed2]
    rfl

/-- Claim C1 witness: the empty sequence is degenerate and yields "0.00". -/
theorem calculateTotalDistance_spec_witness :
    ([] : List TrekPoint).length ≤ 1
    ∧ calculateTotalDistance (fun _ _ => 5) [] = "0.00" :=
  ⟨by decide, (calculateTotalDistance_spec (fun _ _ => 5) []).2 (by decide)⟩

/-- Claim C2 counterexample: when the AI call fails, the preview image state
has nevertheless been mutated (it is set before the call), so "no other
state mutation occurs" is false on the code. -/
theorem handleFileUpload_failure_mutation_cex :
    (handleFileUpload initialAppState (some "photo.png") "data:image/png;base64,AAAA"
        (fun _ => Except.error ())).1.previewImage = some "data:image/png;base64,AAAA"
    ∧ initialAppState.previewImage = none := by
  constructor <;> rfl

/-- Claim C2 (amended): if the AI identification call fails during an image
upload, a blocking alert is shown, the stored landmark and the active tab
remain unchanged, the loading flag ends cleared, every other state field is
unchanged except the preview image, which has been set to the uploaded
image's encoded form. -/
theorem handleFileUpload_failure_spec (s : AppState) (file full : String)
    (idf : String → Except Unit MountainInfo)
    (h : idf (base64Part full) = Except.error ()) :
    Event.alertShown ∈ (handleFileUpload s (some file) full idf).2
    ∧ (handleFileUpload s (some file) full idf).1.landmark = s.landmark
    ∧ (handleFileUpload s (some file) full idf).1.activeTab = s.activeTab
    ∧ (handleFileUpload s (some file) full idf).1.loading = false
    ∧ (handleFileUpload s (some file) full idf).1.village = s.village
    ∧ (handleFileUpload s (some file) full idf).1.weatherData = s.weatherData
    ∧ (handleFileUpload s (some file) full idf).1.currentAltitude = s.currentAltitude
    ∧ (handleFileUpload s (some file) full idf).1.currentLocation = s.currentLocation
    ∧ (handleFileUpload s (some file) full idf).1.previewImage = some full := by
  simp [handleFileUpload, h]

/-- Claim C2 witness: a concrete failing upload from the initial state. -/
theorem handleFileUpload_failure_spec_witness :
    (fun _ => (Except.error () : Except Unit MountainInfo))
        (base64Part "data:image/png;base64,BBBB") = Except.error ()
    ∧ (Event.alertShown ∈ (handleFileUpload initialAppState (some "p.png")
          "data:image/png;base64,BBBB" (fun _ => Except.error ())).2
      ∧ (handleFileUpload initialAppState (some "p.png") "data:image/png;base64,BBBB"
          (fun _ => Except.error ())).1.landmark = initialAppState.landmark
      ∧ (handleFileUpload initialAppState (some "p.png") "data:image/png;base64,BBBB"
          (fun _ => Except.error ())).1.activeTab = initialAppState.activeTab
      ∧ (handleFileUpload initialAppState (some "p.png") "data:image/png;base64,BBBB"
          (fun _ => Except.error ())).1.loading = false
      ∧ (handleFileUpload initialAppState (some "p.png") "data:image/png;base64,BBBB"
          (fun _ => Except.error ())).1.village = initialAppState.village
      ∧ (handleFileUpload initialAppState (some "p.png") "data:image/png;base64,BBBB"
          (fun _ => Except.error ())).1.weatherData = initialAppState.weatherData
      ∧ (handleFileUpload initialAppState (some "p.png") "data:image/png;base64,BBBB"
          (fun _ => Except.error ())).1.currentAltitude = initialAppState.currentAltitude
      ∧ (handleFileUpload initialAppState (some "p.png") "data:image/png;base64,BBBB"
          (fun _ => Except.error ())).1.currentLocation = initialAppState.currentLocation
      ∧ (handleFileUpload initialAppState (some "p.png") "data:image/png;base64,BBBB"
          (fun _ => Except.error ())).1.previewImage = some "data:image/png;base64,BBBB") :=
  ⟨rfl, handleFileUpload_failure_spec initialAppState "p.png" "data:image/png;base64,BBBB"
    (fun _ => Except.error ()) rfl⟩

/-- Claim C3: when the AI identification call answers successfully, the
active tab becomes the scanner tab and the stored landmark equals exactly
the service's returned fields. -/
theorem handleFileUpload_success_spec (s : AppState) (file full : String)
    (idf : String → Except Unit MountainInfo) (info : MountainInfo)
    (h : idf (base64Part full) = Except.ok info) :
    (handleFileUpload s (some file) full idf).1.activeTab = Tab.scanner
    ∧ (handleFileUpload s (some file) full idf).1.landmark = some info := by
  simp [handleFileUpload, h]

/-- Claim C3 witness: a concrete successful upload from the initial state. -/
theorem handleFileUpload_success_spec_witness :
    (fun _ => (Except.ok exInfo : Except Unit MountainInfo))
        (base64Part "data:x,AAAA") = Except.ok exInfo
    ∧ ((handleFileUpload initialAppState (some "p") "data:x,AAAA"
          (fun _ => Except.ok exInfo)).1.activeTab = Tab.scanner
      ∧ (handleFileUpload initialAppState (some "p") "data:x,AAAA"
          (fun _ => Except.ok exInfo)).1.landmark = some exInfo) :=
  ⟨rfl, handleFileUpload_success_spec initialAppState "p" "data:x,AAAA"
    (fun _ => Except.ok exInfo) exInfo rfl⟩

/-- Claim C4: for every image upload, the effect trace starts by setting the
loading flag, the identification call happens after that, the trace ends by
clearing the loading flag, and no other touch of the loading flag occurs —
regardless of whether the call succeeds or fails. -/
theorem handleFileUpload_loading_spec (s : AppState) (file full : String)
    (idf : String → Except Unit MountainInfo) :
    ∃ mid : List Event,
      (handleFileUpload s (some file) full idf).2
          = Event.setLoading true :: (mid ++ [Event.setLoading false])
      ∧ Event.identifyCall ∈ mid
      ∧ ∀ b, Event.setLoading b ∉ mid := by
  cases h : idf (base64Part full) with
  | ok info =>
    refine ⟨[Event.setPreview full, Event.identifyCall,
             Event.setLandmark info, Event.setActiveTab Tab.scanner], ?_, ?_, ?_⟩
    · simp [handleFileUpload, h]
    · simp
    · intro b; simp
  | error e =>
    refine ⟨[Event.setPreview full, Event.identifyCall, Event.alertShown], ?_, ?_, ?_⟩
    · simp [handleFileUpload, h]
    · simp
    · intro b; simp

/-- Claim C4 witness: the loading discipline at a concrete failing upload. -/
theorem handleFileUpload_loading_spec_witness :
    ∃ mid : List Event,
      (handleFileUpload initialAppState (some "p") "data:x,CCCC"
          (fun _ => Except.error ())).2
          = Event.setLoading true :: (mid ++ [Event.setLoading false])
      ∧ Event.identifyCall ∈ mid
      ∧ ∀ b, Event.setLoading b ∉ mid :=
  handleFileUpload_loading_spec initialAppState "p" "data:x,CCCC" (fun _ => Except.error ())

/-- Claim C5: once the map view is initialized, a live-location update
changes only the user marker's position — the map instance, tile layer,
trail polyline and waypoint markers are neither recreated (creation
counters unchanged) nor modified (contents unchanged), and no camera
command is issued. -/
theorem satelliteMapEffect_update_frame (cv : Bool) (lat lng : Rat)
    (trail : List TrekPoint) (s : MapViewState) (h : s.mapCreated = true) :
    (satelliteMapEffect cv lat lng trail s).userMarkerPos
        = s.userMarkerPos.map (fun _ => { lat := lat, lng := lng })
    ∧ (satelliteMapEffect cv lat lng trail s).mapCreated = s.mapCreated
    ∧ (satelliteMapEffect cv lat lng trail s).mapCreations = s.mapCreations
    ∧ (satelliteMapEffect cv lat lng trail s).tileCreations = s.tileCreations
    ∧ (satelliteMapEffect cv lat lng trail s).trailCreations = s.trailCreations
    ∧ (satelliteMapEffect cv lat lng trail s).trailRef = s.trailRef
    ∧ (satelliteMapEffect cv lat lng trail s).wpMarkers = s.wpMarkers
    ∧ (satelliteMapEffect cv lat lng trail s).userMarkerCreations = s.userMarkerCreations
    ∧ (satelliteMapEffect cv lat lng trail s).cameraLog = s.cameraLog := by
  simp [satelliteMapEffect, h]

/-- Claim C5 witness: a concrete update on an initialized view state. -/
theorem satelliteMapEffect_update_frame_witness :
    exMapState.mapCreated = true
    ∧ ((satelliteMapEffect true 1 2 [] exMapState).userMarkerPos
          = exMapState.userMarkerPos.map (fun _ => { lat := 1, lng := 2 })
      ∧ (satelliteMapEffect true 1 2 [] exMapState).mapCreated = exMapState.mapCreated
      ∧ (satelliteMapEffect true 1 2 [] exMapState).mapCreations = exMapState.mapCreations
      ∧ (satelliteMapEffect true 1 2 [] exMapState).tileCreations = exMapState.tileCreations
      ∧ (satelliteMapEffect true 1 2 [] exMapState).trailCreations = exMapState.trailCreations
      ∧ (satelliteMapEffect true 1 2 [] exMapState).trailRef = exMapState.trailRef
      ∧ (satelliteMapEffect true 1 2 [] exMapState).wpMarkers = exMapState.wpMarkers
      ∧ (satelliteMapEffect true 1 2 [] exMapState).userMarkerCreations
          = exMapState.userMarkerCreations
      ∧ (satelliteMapEffect true 1 2 [] exMapState).cameraLog = exMapState.cameraLog) :=
  ⟨rfl, satelliteMapEffect_update_frame true 1 2 [] exMapState rfl⟩

/-- Claim C6: the Recenter and Fit-trail actions are camera-only — for every
state of the mounted view, each action leaves the trail polyline, the
waypoint markers, the user marker, all creation counters and the map
reference unchanged (only the camera-command log can grow); neither action
reads or writes any application data. -/
theorem cameraActions_frame (lat lng : Rat) (s : MapViewState) :
    ((handleRecenter lat lng s).trailRef = s.trailRef
      ∧ (handleRecenter lat lng s).wpMarkers = s.wpMarkers
      ∧ (handleRecenter lat lng s).userMarkerPos = s.userMarkerPos
      ∧ (handleRecenter lat lng s).mapCreated = s.mapCreated
      ∧ (handleRecenter lat lng s).mapCreations = s.mapCreations
      ∧ (handleRecenter lat lng s).tileCreations = s.tileCreations
      ∧ (handleRecenter lat lng s).trailCreations = s.trailCreations
      ∧ (handleRecenter lat lng s).userMarkerCreations = s.userMarkerCreations)
    ∧ ((showEntireTrail s).trailRef = s.trailRef
      ∧ (showEntireTrail s).wpMarkers = s.wpMarkers
      ∧ (showEntireTrail s).userMarkerPos = s.userMarkerPos
      ∧ (showEntireTrail s).mapCreated = s.mapCreated
      ∧ (showEntireTrail s).mapCreations = s.mapCreations
      ∧ (showEntireTrail s).tileCreations = s.tileCreations
      ∧ (showEntireTrail s).trailCreations = s.trailCreations
      ∧ (showEntireTrail s).userMarkerCreations = s.userMarkerCreations) := by
  constructor
  · unfold handleRecenter
    split <;> simp
  · unfold showEntireTrail
    split
    · split <;> simp
    · simp

/-- Claim C7: on the first render with a valid container, exactly one map
instance, tile layer, trail polyline and user marker are created, the
initial camera is set to the live location at zoom 13 (followed by the
fit-to-trail command of line 122), the trail polyline holds the full
waypoint sequence, one labelled marker is added per waypoint, and the user
marker sits at the live location. -/
theorem satelliteMapEffect_init_spec (lat lng : Rat) (trail : List TrekPoint) :
    satelliteMapEffect true lat lng trail initialMapViewState =
      { mapCreated := true, mapCreations := 1, tileCreations := 1, trailCreations := 1,
        trailRef := some (trail.map coordOfPoint),
        wpMarkers := trail.map (fun p => (coordOfPoint p, p.label)),
        userMarkerCreations := 1,
        userMarkerPos := some { lat := lat, lng := lng },
        cameraLog := [CameraCmd.setView { lat := lat, lng := lng } 13,
                      CameraCmd.fitBounds (trail.map coordOfPoint) (50, 50)] } := rfl

/-- Claim C8: every delivered position reading overwrites the stored live
location wholesale; the stored altitude is overwritten (rounded) exactly
when the reading carries a non-null altitude; every other shell state field
is untouched; and the watch effect's teardown cleanup is `clearWatch` of
the acquired subscription handle. -/
theorem onWatchUpdate_spec (s : AppState) (r : GeoReading) (w : Nat) :
    (onWatchUpdate s r).currentLocation = { lat := r.lat, lng := r.lng }
    ∧ (∀ a, r.altitude = some a →
        (onWatchUpdate s r).currentAltitude = some (jsRound a))
    ∧ (r.altitude = none →
        (onWatchUpdate s r).currentAltitude = s.currentAltitude)
    ∧ (onWatchUpdate s r).activeTab = s.activeTab
    ∧ (onWatchUpdate s r).landmark = s.landmark
    ∧ (onWatchUpdate s r).village = s.village
    ∧ (onWatchUpdate s r).loading = s.loading
    ∧ (onWatchUpdate s r).weatherData = s.weatherData
    ∧ (onWatchUpdate s r).previewImage = s.previewImage
    ∧ (watchEffect true w).2 = some [GeoCmd.clearWatch w] := by
  cases hr : r.altitude <;> simp [onWatchUpdate, watchEffect, hr]

/-- Claim C8 witness: a concrete reading with an altitude, from the initial
state. -/
theorem onWatchUpdate_spec_witness :
    (onWatchUpdate initialAppState { lat := 1, lng := 2, altitude := some (3/2) }).currentLocation
        = { lat := 1, lng := 2 }
    ∧ (onWatchUpdate initialAppState { lat := 1, lng := 2, altitude := some (3/2) }).currentAltitude
        = some (jsRound (3/2)) := by
  have h := onWatchUpdate_spec initialAppState { lat := 1, lng := 2, altitude := some (3/2) } 0
  exact ⟨h.1, h.2.1 (3/2) rfl⟩

/-- Claim C9 counterexample: with the insight fetch succeeding and the
weather-search fetch failing, a startup fetch has failed yet the village
state is not left at its initial absent value — it holds the fetched
insight. -/
theorem loadVillageData_search_failure_cex :
    (loadVillageData initialAppState (Except.ok exVillage) (Except.error ())).1.village
        = some exVillage
    ∧ initialAppState.village = none
    ∧ Event.logError ∈ (loadVillageData initialAppState (Except.ok exVillage)
        (Except.error ())).2 := by
  refine ⟨rfl, rfl, ?_⟩
  simp [loadVillageData]

/-- Claim C9 (amended): if the startup village-insight fetch fails, village
and weather state keep their prior (initially absent) values; if the insight
succeeds and only the weather-search fetch fails, the village state holds
the fetched insight while the weather state keeps its prior absent value; in
both cases the error is only logged, no user-facing alert is raised, and the
loading flag ends cleared. -/
theorem loadVillageData_failure_spec (s : AppState) (v : VillageInfo)
    (ins : Except Unit VillageInfo) (sr : Except Unit SearchResult) :
    (ins = Except.error () →
      (loadVillageData s ins sr).1.village = s.village
      ∧ (loadVillageData s ins sr).1.weatherData = s.weatherData
      ∧ Event.logError ∈ (loadVillageData s ins sr).2
      ∧ Event.alertShown ∉ (loadVillageData s ins sr).2
      ∧ (loadVillageData s ins sr).1.loading = false)
    ∧ (ins = Except.ok v → sr = Except.error () →
      (loadVillageData s ins sr).1.village = some v
      ∧ (loadVillageData s ins sr).1.weatherData = s.weatherData
      ∧ Event.logError ∈ (loadVillageData s ins sr).2
      ∧ Event.alertShown ∉ (loadVillageData s ins sr).2
      ∧ (loadVillageData s ins sr).1.loading = false) := by
  constructor
  · intro h
    subst h
    simp [loadVillageData]
  · intro h1 h2
    subst h1
    subst h2
    simp [loadVillageData]

/-- Claim C9 witness: the amended behaviour at a concrete failing weather
search. -/
theorem loadVillageData_failure_spec_witness :
    (Except.ok exVillage : Except Unit VillageInfo) = Except.ok exVillage
    ∧ (Except.error () : Except Unit SearchResult) = Except.error ()
    ∧ ((loadVillageData initialAppState (Except.ok exVillage) (Except.error ())).1.village
          = some exVillage
      ∧ (loadVillageData initialAppState (Except.ok exVillage) (Except.error ())).1.weatherData
          = initialAppState.weatherData
      ∧ Event.logError ∈ (loadVillageData initialAppState (Except.ok exVillage)
          (Except.error ())).2
      ∧ Event.alertShown ∉ (loadVillageData initialAppState (Except.ok exVillage)
          (Except.error ())).2
      ∧ (loadVillageData initialAppState (Except.ok exVillage) (Except.error ())).1.loading
          = false) :=
  ⟨rfl, rfl,
    (loadVillageData_failure_spec initialAppState exVillage (Except.ok exVillage)
      (Except.error ())).2 rfl rfl⟩

/-- Claim C10: before any geolocation callback the stored live location is
the Takam Village waypoint's coordinates (28.4230, 83.3333); with no
reported altitude the displayed altitude is 1670 m, which is the altitude of
the third waypoint, labelled "Takam Village"; and every altitude stored from
a geolocation reading (watch or one-shot) is rounded to the nearest
integer. -/
theorem shellDefaults_spec :
    initialAppState.currentLocation = { lat := 28.4230, lng := 83.3333 }
    ∧ (MOCK_TREK_DATA.getD 2 dummyPoint).label = "Takam Village"
    ∧ (MOCK_TREK_DATA.getD 2 dummyPoint).lat = initialAppState.currentLocation.lat
      ∧ (MOCK_TREK_DATA.getD 2 dummyPoint).lng = initialAppState.currentLocation.lng
    ∧ (∀ s : AppState, s.currentAltitude = none → displayedAltitude s = 1670)
    ∧ (MOCK_TREK_DATA.getD 2 dummyPoint).altitude = 1670
    ∧ (∀ (s : AppState) (r : GeoReading) (a : Rat), r.altitude = some a →
        (onWatchUpdate s r).currentAltitude = some (jsRound a))
    ∧ (∀ (s : AppState) (r : GeoReading) (a : Rat), r.altitude = some a →
        (onInitialPosition s r).currentAltitude = some (jsRound a)) := by
  refine ⟨rfl, rfl, rfl, rfl, ?_, rfl, ?_, ?_⟩
  · intro s h
    unfold displayedAltitude
    rw [h]
    rfl
  · intro s r a h
    simp [onWatchUpdate, h]
  · intro s r a h
    simp [onInitialPosition, onWatchUpdate, h]

/-- Claim C10 witness: the defaults and the rounding at concrete inputs. -/
theorem shellDefaults_spec_witness :
    displayedAltitude initialAppState = 1670
    ∧ (onWatchUpdate initialAppState { lat := 5, lng := 6, altitude := some (7/2) }).currentAltitude
        = some (jsRound (7/2))
    ∧ jsRound (7/2) = 4 := by
  obtain ⟨h1, h2, h3, h4, h5, h6, h7, h8⟩ := shellDefaults_spec
  exact ⟨h5 initialAppState rfl,
    h7 initialAppState { lat := 5, lng := 6, altitude := some (7/2) } (7/2) rfl,
    by norm_num [jsRound]⟩
